import Mathlib

/-!
Verification of the resume-robot repository against its natural-language
specification.  The definitions below are a shallow embedding of the
TypeScript/Python sources: pure functions become Lean functions, the Axios
interceptors become explicit result records, and the (absent) backend LLM
service is modelled from the specification text, as marked.
-/

namespace ResumeRobot

/-!  ## LLM provider selection

Model of `_get_api_key` / `chat_completion` in
`backend/app/services/llm_service.py`.  That file is not among the sources;
the model follows spec section 4.1 ("LLM Provider Selection") and the
repository document "LLM 调用机制说明", which quotes the fallback loop of
`_get_api_key` verbatim.  -/

/-- The statically known chat-completion providers of `_provider_configs`. -/
inductive Provider
  | deepseek
  | doubao
deriving DecidableEq, Repr

/-- System-wide configuration of one provider: the administrative enabled flag
(setting `llm.<provider>.enabled`) and the configured API key
(setting `llm.<provider>.api_key`; the empty string stands for an unset key). -/
structure ProviderConfig where
  enabled : Bool
  apiKey : String
deriving DecidableEq, Repr

/-- A personal `UserLLMConfig` row: the provider the user chose and the key
the user entered (one row per user). -/
structure UserLLMConfig where
  provider : Provider
  apiKey : String
deriving DecidableEq, Repr

/-- The system settings of all statically known providers. -/
structure LLMSystemConfig where
  deepseek : ProviderConfig
  doubao : ProviderConfig
deriving DecidableEq, Repr

def LLMSystemConfig.get (sys : LLMSystemConfig) : Provider → ProviderConfig
  | .deepseek => sys.deepseek
  | .doubao => sys.doubao

/-- A key counts as configured exactly when it is non-empty after stripping
whitespace (the Python checks `api_key and api_key.strip()`). -/
def keyConfigured (key : String) : Bool := key.trim ≠ ""

/-- The fixed iteration order of `_provider_configs`: deepseek, then doubao. -/
def providerOrder : List Provider := [.deepseek, .doubao]

/-- A provider qualifies when it is administratively enabled and its system
API key is configured. -/
def providerAvailable (sys : LLMSystemConfig) (p : Provider) : Bool :=
  (sys.get p).enabled && keyConfigured (sys.get p).apiKey

/-- The requesting user has a usable personal configuration: a non-empty
personal key, and the personally chosen provider not administratively
disabled (`has_user_config` in `_get_api_key`). -/
def userConfigUsable (sys : LLMSystemConfig) : Option UserLLMConfig → Bool
  | some u => (sys.get u.provider).enabled && keyConfigured u.apiKey
  | none => false

/-- Modelled from the spec: the fallback loop of `_get_api_key` (quoted in
"LLM 调用机制说明"): iterate `_provider_configs` in order, skip the current
provider, skip disabled providers, and return the first provider whose
system key is configured, together with that key. -/
def fallbackScan (sys : LLMSystemConfig) (current : Provider) :
    List Provider → Option (Provider × String)
  | [] => none
  | p :: rest =>
    if p = current then fallbackScan sys current rest
    else if !(sys.get p).enabled then fallbackScan sys current rest
    else if keyConfigured (sys.get p).apiKey then some (p, (sys.get p).apiKey)
    else fallbackScan sys current rest

/-- Modelled from the spec: the system half of `_get_api_key` — use the
current (process-default) provider when it is enabled and keyed, otherwise
run the fallback loop, otherwise raise the no-provider error. -/
def systemApiKey (sys : LLMSystemConfig) (current : Provider) :
    Except String (Provider × String) :=
  if providerAvailable sys current then
    .ok (current, (sys.get current).apiKey)
  else
    match fallbackScan sys current providerOrder with
    | some pk => .ok pk
    | none => .error "所有LLM provider都已关闭，请至少启用一个provider"

/-- Modelled from the spec: `_get_api_key` of
`backend/app/services/llm_service.py` (absent from the sources).  The
process-configured default provider is `deepseek` (`LLMService.__init__`).
A usable personal configuration wins; otherwise the system selection runs
with `deepseek` as the current provider. -/
def getApiKey (user : Option UserLLMConfig) (sys : LLMSystemConfig) :
    Except String (Provider × String) :=
  match user with
  | some u =>
    if (sys.get u.provider).enabled && keyConfigured u.apiKey then
      .ok (u.provider, u.apiKey)
    else
      systemApiKey sys Provider.deepseek
  | none => systemApiKey sys Provider.deepseek

/-- The provider actually used by a selection result. -/
def chosenProvider (r : Except String (Provider × String)) : Option Provider :=
  match r with
  | .ok pk => some pk.fst
  | .error _ => none

/-- The selection policy in the words of the specification, system half:
the default provider `deepseek` if enabled and keyed, otherwise the first
enabled-and-keyed provider of the statically ordered list. -/
def specSystemProvider (sys : LLMSystemConfig) : Option Provider :=
  if providerAvailable sys .deepseek then some .deepseek
  else providerOrder.find? (fun p => providerAvailable sys p)

/-- The selection policy in the words of the specification: the personally
configured provider when its key is non-empty and it is not disabled,
otherwise the system selection. -/
def specSelectProvider (user : Option UserLLMConfig) (sys : LLMSystemConfig) :
    Option Provider :=
  match user with
  | some u =>
    if keyConfigured u.apiKey && (sys.get u.provider).enabled then some u.provider
    else specSystemProvider sys
  | none => specSystemProvider sys

/-- No provider qualifies: the user has no usable personal configuration and
every provider of the static list is disabled or lacks a configured key. -/
def noProviderQualifies (user : Option UserLLMConfig) (sys : LLMSystemConfig) : Bool :=
  !userConfigUsable sys user && providerOrder.all (fun p => !providerAvailable sys p)

/-- Whether provider selection raises the no-provider error. -/
def selectionFails (user : Option UserLLMConfig) (sys : LLMSystemConfig) : Bool :=
  match getApiKey user sys with
  | .error _ => true
  | .ok _ => false

/-- Modelled from the spec: `chat_completion` of
`backend/app/services/llm_service.py` (absent from the sources) obtains a key
via `_get_api_key` and then issues exactly one HTTP call to the selected
provider; a selection error propagates before any HTTP call.  The second
component records the providers whose HTTP endpoints were called. -/
def chatCompletion (user : Option UserLLMConfig) (sys : LLMSystemConfig) :
    Except String Provider × List Provider :=
  match getApiKey user sys with
  | .error e => (.error e, [])
  | .ok pk => (.ok pk.fst, [pk.fst])

/-- Helper: the system half of the selection agrees with the spec wording. -/
theorem systemApiKey_spec (sys : LLMSystemConfig) :
    chosenProvider (systemApiKey sys .deepseek) = specSystemProvider sys := by
  by_cases h1 : (sys.get .deepseek).enabled
  · by_cases h2 : keyConfigured (sys.get .deepseek).apiKey
    · simp [systemApiKey, specSystemProvider, providerAvailable, chosenProvider, h1, h2]
    · by_cases h3 : (sys.get .doubao).enabled
      · by_cases h4 : keyConfigured (sys.get .doubao).apiKey
        · simp [systemApiKey, specSystemProvider, providerAvailable, chosenProvider,
            providerOrder, fallbackScan, List.find?, h1, h2, h3, h4]
        · simp [systemApiKey, specSystemProvider, providerAvailable, chosenProvider,
            providerOrder, fallbackScan, List.find?, h1, h2, h3, h4]
      · simp [systemApiKey, specSystemProvider, providerAvailable, chosenProvider,
          providerOrder, fallbackScan, List.find?, h1, h2, h3]
  · by_cases h3 : (sys.get .doubao).enabled
    · by_cases h4 : keyConfigured (sys.get .doubao).apiKey
      · simp [systemApiKey, specSystemProvider, providerAvailable, chosenProvider,
          providerOrder, fallbackScan, List.find?, h1, h3, h4]
      · simp [systemApiKey, specSystemProvider, providerAvailable, chosenProvider,
          providerOrder, fallbackScan, List.find?, h1, h3, h4]
    · simp [systemApiKey, specSystemProvider, providerAvailable, chosenProvider,
        providerOrder, fallbackScan, List.find?, h1, h3]

/-- C1: for every chat-completion request, the provider used is chosen by the
stated priority — a usable personal configuration (non-empty key, provider
not administratively disabled) wins; otherwise the process default `deepseek`
when enabled and keyed; otherwise the first enabled-and-keyed provider of the
static list (deepseek, then doubao). -/
theorem llm_provider_selection_priority (user : Option UserLLMConfig)
    (sys : LLMSystemConfig) :
    chosenProvider (getApiKey user sys) = specSelectProvider user sys := by
  cases user with
  | none => simpa [getApiKey, specSelectProvider] using systemApiKey_spec sys
  | some u =>
    by_cases h : (sys.get u.provider).enabled ∧ keyConfigured u.apiKey
    · simp [getApiKey, specSelectProvider, chosenProvider, h.1, h.2]
    · rw [Classical.not_and_iff_or_not_not] at h
      rcases h with h | h
      · simpa [getApiKey, specSelectProvider, h] using systemApiKey_spec sys
      · simpa [getApiKey, specSelectProvider, h] using systemApiKey_spec sys

/-- Helper: the system half errors exactly when both static providers are
disabled or unkeyed. -/
theorem systemApiKey_error_iff (sys : LLMSystemConfig) :
    (match systemApiKey sys .deepseek with
      | .error _ => true
      | .ok _ => false) =
      (!providerAvailable sys .deepseek && !providerAvailable sys .doubao) := by
  by_cases h1 : (sys.get .deepseek).enabled
  · by_cases h2 : keyConfigured (sys.get .deepseek).apiKey
    · simp [systemApiKey, providerAvailable, h1, h2]
    · by_cases h3 : (sys.get .doubao).enabled
      · by_cases h4 : keyConfigured (sys.get .doubao).apiKey
        · simp [systemApiKey, providerAvailable, providerOrder, fallbackScan, h1, h2, h3, h4]
        · simp [systemApiKey, providerAvailable, providerOrder, fallbackScan, h1, h2, h3, h4]
      · simp [systemApiKey, providerAvailable, providerOrder, fallbackScan, h1, h2, h3]
  · by_cases h3 : (sys.get .doubao).enabled
    · by_cases h4 : keyConfigured (sys.get .doubao).apiKey
      · simp [systemApiKey, providerAvailable, providerOrder, fallbackScan, h1, h3, h4]
      · simp [systemApiKey, providerAvailable, providerOrder, fallbackScan, h1, h3, h4]
    · simp [systemApiKey, providerAvailable, providerOrder, fallbackScan, h1, h3]

/-- C2: the service raises the no-provider error exactly when no provider
qualifies (no usable personal configuration, and every provider of the
static list disabled or unkeyed), and in that case no LLM HTTP call is
made. -/
theorem llm_no_provider_error_iff (user : Option UserLLMConfig)
    (sys : LLMSystemConfig) :
    selectionFails user sys = noProviderQualifies user sys ∧
      (noProviderQualifies user sys = true → (chatCompletion user sys).snd = []) := by
  have hmain : selectionFails user sys = noProviderQualifies user sys := by
    cases user with
    | none =>
      have := systemApiKey_error_iff sys
      simpa [selectionFails, getApiKey, noProviderQualifies, userConfigUsable,
        providerOrder, List.all_cons] using this
    | some u =>
      by_cases h : (sys.get u.provider).enabled ∧ keyConfigured u.apiKey
      · simp [selectionFails, getApiKey, noProviderQualifies, userConfigUsable, h.1, h.2]
      · rw [Classical.not_and_iff_or_not_not] at h
        have hsys := systemApiKey_error_iff sys
        rcases h with h | h
        · simpa [selectionFails, getApiKey, noProviderQualifies, userConfigUsable, h,
            providerOrder, List.all_cons] using hsys
        · simpa [selectionFails, getApiKey, noProviderQualifies, userConfigUsable, h,
            providerOrder, List.all_cons] using hsys
  refine ⟨hmain, fun hq => ?_⟩
  have hf : selectionFails user sys = true := hmain.trans hq
  unfold chatCompletion
  unfold selectionFails at hf
  revert hf
  cases getApiKey user sys <;> simp

/-- Witness for C2 at a concrete configuration: no personal configuration and
both providers administratively disabled. -/
theorem llm_no_provider_error_iff_witness :
    selectionFails none ⟨⟨false, "k1"⟩, ⟨false, "k2"⟩⟩ =
        noProviderQualifies none ⟨⟨false, "k1"⟩, ⟨false, "k2"⟩⟩ ∧
      (chatCompletion none ⟨⟨false, "k1"⟩, ⟨false, "k2"⟩⟩).snd = [] := by
  have h := llm_no_provider_error_iff none ⟨⟨false, "k1"⟩, ⟨false, "k2"⟩⟩
  exact ⟨h.1, h.2 (by decide)⟩

/-!  ## Axios response interceptors

Model of the response interceptors of the tenant SPA
(`frontend/app/src/services/api.ts`) and of the admin SPA (the unnamed
source `part_012`).  Each invocation of an interceptor on a rejected
response is a pure function from the error and the outcome of the refresh
attempt to a record of the externally visible actions taken. -/

/-- JavaScript `url.includes(sub)`: substring containment. -/
def urlIncludes (url sub : String) : Bool := decide (sub.toList <:+: url.toList)

/-- A rejected Axios response as the interceptor sees it: the HTTP status of
the response (none when no response arrived), the URL of the original
request, and the `_retry` flag already present on the original request. -/
structure AxiosError where
  status : Option Nat
  url : String
  retryFlag : Bool
deriving DecidableEq, Repr

/-- Outcome of one `useAuthStore.getState().refreshToken()` call: the promise
threw, or it returned a boolean, with the `access_token` found in
localStorage afterwards. -/
inductive RefreshAttempt
  | threw
  | returned (refreshed : Bool) (storedToken : Option String)
deriving DecidableEq, Repr

/-- The refresh delivered a usable token: it returned true and a token was in
localStorage afterwards. -/
def refreshDelivers : RefreshAttempt → Bool
  | .returned true (some _) => true
  | _ => false

/-- The externally visible actions of one interceptor invocation. -/
structure InterceptResult where
  refreshAttempts : Nat
  retried : Bool
  clearedAuth : Bool
  redirectedTo : Option String
  toast : Option String
  rejectsOriginal : Bool
deriving DecidableEq, Repr

/-- The tenant-SPA response interceptor (`api.interceptors.response` in
`frontend/app/src/services/api.ts`).  On a 401 that is neither a login nor a
refresh request: if `_retry` is already set, clear `access_token`, `user`,
`tenant_id` and redirect to `/login`; otherwise set `_retry`, call
`refreshToken()` once, and retry the original request exactly when the
refresh returned true and a new token is stored — otherwise clear and
redirect.  A 403 shows the 权限不足 toast.  Every non-retried path rejects
with the original error. -/
def tenantOnRejected (err : AxiosError) (env : RefreshAttempt) : InterceptResult :=
  let isLoginRequest := urlIncludes err.url "/auth/login"
  let isRefreshRequest := urlIncludes err.url "/auth/refresh"
  if err.status = some 401 && !isLoginRequest && !isRefreshRequest then
    if err.retryFlag then
      { refreshAttempts := 0, retried := false, clearedAuth := true,
        redirectedTo := some "/login", toast := none, rejectsOriginal := true }
    else if refreshDelivers env then
      { refreshAttempts := 1, retried := true, clearedAuth := false,
        redirectedTo := none, toast := none, rejectsOriginal := false }
    else
      { refreshAttempts := 1, retried := false, clearedAuth := true,
        redirectedTo := some "/login", toast := none, rejectsOriginal := true }
  else if err.status = some 403 then
    { refreshAttempts := 0, retried := false, clearedAuth := false,
      redirectedTo := none, toast := some "权限不足", rejectsOriginal := true }
  else
    { refreshAttempts := 0, retried := false, clearedAuth := false,
      redirectedTo := none, toast := none, rejectsOriginal := true }

/-- The admin-SPA response interceptor (source `part_012`).  On a 401 that is
not a login request (`/auth/login` or `/admin/auth/login`), it immediately
removes `admin_access_token` and `admin_user` and redirects to
`/admin/login`; it never calls a token refresh.  A 403 shows the 权限不足
toast.  Every path rejects with the original error. -/
def adminOnRejected (err : AxiosError) : InterceptResult :=
  let isLoginRequest :=
    urlIncludes err.url "/auth/login" || urlIncludes err.url "/admin/auth/login"
  if err.status = some 401 then
    if !isLoginRequest then
      { refreshAttempts := 0, retried := false, clearedAuth := true,
        redirectedTo := some "/admin/login", toast := none, rejectsOriginal := true }
    else
      { refreshAttempts := 0, retried := false, clearedAuth := false,
        redirectedTo := none, toast := none, rejectsOriginal := true }
  else if err.status = some 403 then
    { refreshAttempts := 0, retried := false, clearedAuth := false,
      redirectedTo := none, toast := some "权限不足", rejectsOriginal := true }
  else
    { refreshAttempts := 0, retried := false, clearedAuth := false,
      redirectedTo := none, toast := none, rejectsOriginal := true }

/-- Helper: a URL that does not contain `/auth/login` does not contain
`/admin/auth/login` either. -/
theorem urlIncludes_admin_login (url : String)
    (h : urlIncludes url "/auth/login" = false) :
    urlIncludes url "/admin/auth/login" = false := by
  by_contra hc
  rw [Bool.not_eq_false, urlIncludes, decide_eq_true_eq] at hc
  have h1 : ("/auth/login".toList) <:+: ("/admin/auth/login".toList) := by decide
  have h2 : ("/auth/login".toList) <:+: url.toList := h1.trans hc
  rw [urlIncludes, decide_eq_false_iff_not] at h
  exact h h2

/-- A concrete admin-SPA request error: HTTP 401 on `/admin/tenants`. -/
def adminTenants401 : AxiosError :=
  { status := some 401, url := "/admin/tenants", retryFlag := false }

/-- C3 counterexample: in the admin SPA a 401 on a non-login request is
handled with zero token-refresh attempts and an immediate clear-and-redirect,
so it is not the case that in both SPAs every such 401 triggers exactly one
refresh attempt with removal and redirect only after a failed refresh or
failed retry. -/
theorem admin_401_no_refresh_cex :
    (adminOnRejected adminTenants401).refreshAttempts = 0 ∧
      (adminOnRejected adminTenants401).retried = false ∧
      (adminOnRejected adminTenants401).clearedAuth = true ∧
      (adminOnRejected adminTenants401).redirectedTo = some "/admin/login" := by
  decide

/-- C3 (amended): in the tenant SPA a 401 that is neither a login nor a
refresh request triggers exactly one refresh attempt when `_retry` is unset,
retries exactly when the refresh delivered a token, and clears
`access_token`/`user`/`tenant_id` and redirects to `/login` exactly when it
did not; when `_retry` is already set it clears and redirects with no further
refresh or retry.  In the admin SPA the same 401 is handled with no refresh
attempt at all: the stored admin token and user are removed and the browser
redirected to `/admin/login` immediately. -/
theorem spa_401_handling (err : AxiosError) (env : RefreshAttempt)
    (h401 : err.status = some 401)
    (hlogin : urlIncludes err.url "/auth/login" = false)
    (hrefresh : urlIncludes err.url "/auth/refresh" = false) :
    (err.retryFlag = false →
      (tenantOnRejected err env).refreshAttempts = 1 ∧
      ((tenantOnRejected err env).retried = true ↔ refreshDelivers env = true) ∧
      ((tenantOnRejected err env).clearedAuth = true ↔ refreshDelivers env = false) ∧
      ((tenantOnRejected err env).redirectedTo = some "/login" ↔
        refreshDelivers env = false)) ∧
    (err.retryFlag = true →
      (tenantOnRejected err env).refreshAttempts = 0 ∧
      (tenantOnRejected err env).retried = false ∧
      (tenantOnRejected err env).clearedAuth = true ∧
      (tenantOnRejected err env).redirectedTo = some "/login") ∧
    ((adminOnRejected err).refreshAttempts = 0 ∧
      (adminOnRejected err).retried = false ∧
      (adminOnRejected err).clearedAuth = true ∧
      (adminOnRejected err).redirectedTo = some "/admin/login") := by
  have hadm : urlIncludes err.url "/admin/auth/login" = false :=
    urlIncludes_admin_login err.url hlogin
  refine ⟨fun hr => ?_, fun hr => ?_, ?_⟩
  · cases henv : refreshDelivers env <;>
      simp [tenantOnRejected, h401, hlogin, hrefresh, hr, henv]
  · simp [tenantOnRejected, h401, hlogin, hrefresh, hr]
  · simp [adminOnRejected, h401, hlogin, hadm]

/-- Witness for C3 (amended) at a concrete 401 on `/jobs/positions` with a
refresh that delivers a new token. -/
theorem spa_401_handling_witness :
    (tenantOnRejected ⟨some 401, "/jobs/positions", false⟩
        (.returned true (some "tok"))).refreshAttempts = 1 ∧
      (tenantOnRejected ⟨some 401, "/jobs/positions", false⟩
        (.returned true (some "tok"))).retried = true ∧
      (adminOnRejected ⟨some 401, "/jobs/positions", false⟩).refreshAttempts = 0 := by
  have h := spa_401_handling ⟨some 401, "/jobs/positions", false⟩
    (.returned true (some "tok")) rfl (by decide) (by decide)
  exact ⟨(h.1 rfl).1, ((h.1 rfl).2.1).mpr rfl, h.2.2.1⟩

/-- C8: on every HTTP 403 response, both SPAs show the generic 权限不足
toast, make no retry (and no refresh attempt), keep the stored credentials,
and reject the promise with the original error. -/
theorem spa_403_insufficient_permission (err : AxiosError) (env : RefreshAttempt)
    (h : err.status = some 403) :
    (tenantOnRejected err env).toast = some "权限不足" ∧
      (tenantOnRejected err env).retried = false ∧
      (tenantOnRejected err env).refreshAttempts = 0 ∧
      (tenantOnRejected err env).clearedAuth = false ∧
      (tenantOnRejected err env).rejectsOriginal = true ∧
      (adminOnRejected err).toast = some "权限不足" ∧
      (adminOnRejected err).retried = false ∧
      (adminOnRejected err).refreshAttempts = 0 ∧
      (adminOnRejected err).clearedAuth = false ∧
      (adminOnRejected err).rejectsOriginal = true := by
  constructor
  · simp [tenantOnRejected, h]
  · simp [tenantOnRejected, adminOnRejected, h]

/-- Witness for C8 at a concrete 403 on `/jobs/positions`. -/
theorem spa_403_insufficient_permission_witness :
    (tenantOnRejected ⟨some 403, "/jobs/positions", false⟩ .threw).toast =
        some "权限不足" ∧
      (adminOnRejected ⟨some 403, "/jobs/positions", false⟩).toast =
        some "权限不足" := by
  have h := spa_403_insufficient_permission ⟨some 403, "/jobs/positions", false⟩
    .threw rfl
  exact ⟨h.1, h.2.2.2.2.2.1⟩

/-!  ## Tenant-SPA token-refresh coordination

Model of the module-level `refreshTokenPromise` reference in
`frontend/app/src/services/api.ts` and of the two code paths that call
`refreshToken()`: the request interceptor (proactive refresh of a token that
is about to expire, guarded by the reference) and the response interceptor
(refresh after a 401, which calls `refreshToken()` directly). -/

/-- Coordination state: whether `refreshTokenPromise` is non-null, and how
many `refreshToken()` calls are currently in flight. -/
structure RefreshCoordState where
  promiseSet : Bool
  inflight : Nat
deriving DecidableEq, Repr

/-- The three events that touch the coordination state. -/
inductive RefreshEvent
  | requestExpiring
  | response401
  | refreshSettled
deriving DecidableEq, Repr

/-- One step of the coordination.  The request interceptor consults
`refreshTokenPromise` and starts a refresh only when it is null; the
response-interceptor 401 path calls `refreshToken()` unconditionally; a
settling refresh clears the reference (its `finally`). -/
def stepRefresh (s : RefreshCoordState) : RefreshEvent → RefreshCoordState
  | .requestExpiring =>
    if s.promiseSet then s
    else { promiseSet := true, inflight := s.inflight + 1 }
  | .response401 => { s with inflight := s.inflight + 1 }
  | .refreshSettled => { promiseSet := false, inflight := s.inflight - 1 }

/-- Run a sequence of events from the initial state (null reference, nothing
in flight). -/
def runRefresh (events : List RefreshEvent) : RefreshCoordState :=
  events.foldl stepRefresh ⟨false, 0⟩

/-- C4 counterexample: a proactive refresh followed by a 401-triggered
refresh before either settles puts two refreshes in flight, so it is not the
case that at most one token-refresh request is ever in flight. -/
theorem two_refreshes_in_flight_cex :
    (runRefresh [RefreshEvent.requestExpiring, RefreshEvent.response401]).inflight
      = 2 := by
  decide

/-- Helper invariant: without 401-triggered refreshes, at most one refresh is
in flight and the promise reference is set exactly while one is. -/
theorem runRefresh_no401_invariant (events : List RefreshEvent)
    (h : RefreshEvent.response401 ∉ events) (s : RefreshCoordState)
    (hs : s.inflight ≤ 1 ∧ (s.promiseSet = false → s.inflight = 0)) :
    (events.foldl stepRefresh s).inflight ≤ 1 ∧
      ((events.foldl stepRefresh s).promiseSet = false →
        (events.foldl stepRefresh s).inflight = 0) := by
  induction events generalizing s with
  | nil => exact hs
  | cons e rest ih =>
    have hne : e ≠ RefreshEvent.response401 := fun he => h (he ▸ List.mem_cons_self e rest)
    have hrest : RefreshEvent.response401 ∉ rest := fun hr => h (List.mem_cons_of_mem e hr)
    refine ih hrest (stepRefresh s e) ?_
    cases e with
    | requestExpiring =>
      by_cases hp : s.promiseSet
      · simpa [stepRefresh, hp] using hs
      · rw [Bool.not_eq_true] at hp
        have h0 : s.inflight = 0 := hs.2 hp
        simp [stepRefresh, hp, h0]
    | response401 => exact absurd rfl hne
    | refreshSettled =>
      have h1 := hs.1
      constructor
      · simp only [stepRefresh]
        omega
      · intro _
        simp only [stepRefresh]
        omega

/-- C4 (amended): the request interceptor's proactive-refresh path is guarded
by `refreshTokenPromise` — it never starts a refresh while the reference is
set, and in any execution whose refreshes all come from that guarded path at
most one refresh is ever in flight.  The response interceptor's 401 path
calls `refreshToken()` without consulting the reference, which is what the
counterexample exploits. -/
theorem refresh_promise_guard (s : RefreshCoordState) (events : List RefreshEvent)
    (hp : s.promiseSet = true)
    (h : RefreshEvent.response401 ∉ events) :
    stepRefresh s .requestExpiring = s ∧ (runRefresh events).inflight ≤ 1 := by
  constructor
  · simp [stepRefresh, hp]
  · exact (runRefresh_no401_invariant events h ⟨false, 0⟩
      (by constructor <;> simp)).1

/-- Witness for C4 (amended) at a concrete state and trace. -/
theorem refresh_promise_guard_witness :
    stepRefresh ⟨true, 1⟩ .requestExpiring = ⟨true, 1⟩ ∧
      (runRefresh [RefreshEvent.requestExpiring, RefreshEvent.refreshSettled,
        RefreshEvent.requestExpiring]).inflight ≤ 1 := by
  exact refresh_promise_guard ⟨true, 1⟩ _ rfl (by decide)

/-!  ## Validation-error toasts

Model of the error branches of `ChangePassword.handleSubmit`
(`frontend/app/src/pages/Settings/ChangePassword.tsx`) and of the admin
`authStore.login` (`frontend/admin/src/stores/authStore.ts`). -/

/-- The fields of a caught Axios error that the toast code reads:
`error.response?.data?.detail`, `error.response?.data?.message` and
`error.message`, each absent when the optional chain yields undefined. -/
structure HttpErrorInfo where
  detail : Option String
  dataMessage : Option String
  message : Option String
deriving DecidableEq, Repr

/-- JavaScript `a || b` on an optional string: `b` when `a` is absent or
empty (falsy), `a` otherwise. -/
def jsStringOr (a : Option String) (b : String) : String :=
  match a with
  | some s => if s = "" then b else s
  | none => b

/-- The detail field is truthy: present and non-empty. -/
def detailTruthy (e : HttpErrorInfo) : Bool :=
  match e.detail with
  | some s => s ≠ ""
  | none => false

/-- The toast text of ChangePassword:
`error.response?.data?.detail || error.message || '密码修改失败'`. -/
def changePasswordErrorMsg (e : HttpErrorInfo) : String :=
  jsStringOr e.detail (jsStringOr e.message "密码修改失败")

/-- The error text the admin login store writes to its `error` state:
`error.response?.data?.detail || error.response?.data?.message ||
error.message || '登录失败'`.  No admin component reads that state; `login`
re-throws and the caller handles the rejection itself. -/
def adminLoginErrorMsg (e : HttpErrorInfo) : String :=
  jsStringOr e.detail (jsStringOr e.dataMessage (jsStringOr e.message "登录失败"))

/-- The toast the admin login page actually shows on a failed login: the
catch branch of `Login.onFinish` (`frontend/admin/src/components/auth/Login.tsx`)
calls `message.error` with a hard-coded text, ignoring the caught error. -/
def adminLoginToast (e : HttpErrorInfo) : String :=
  match e with
  | _ => "用户名和密码错误，请重新输入"

/-- A concrete login failure carrying a server detail string. -/
def adminDetailError : HttpErrorInfo :=
  ⟨some "邮箱或密码错误", none, some "Request failed with status code 401"⟩

/-- C7 counterexample: on an admin login failure whose response carries a
(non-empty) detail string, the toast shown to the user is still the
hard-coded constant and not the detail, so the generic message is not used
only when detail is absent. -/
theorem admin_login_toast_ignores_detail_cex :
    detailTruthy adminDetailError = true ∧
      adminLoginToast adminDetailError = "用户名和密码错误，请重新输入" ∧
      adminLoginToast adminDetailError ≠ "邮箱或密码错误" := by
  refine ⟨by decide, rfl, by decide⟩

/-- C7 (amended): in the tenant ChangePassword screen the toast is the
server detail string whenever it is present and non-empty, and the fallback
chain (error message, then the generic constant) is used only when it is
not; the admin login store computes the same detail-first string into its
`error` state, but the toast the admin login page shows is always the
hard-coded 用户名和密码错误 constant, whatever the server sent. -/
theorem toast_detail_handling (e : HttpErrorInfo) :
    (∀ d, e.detail = some d → d ≠ "" →
      changePasswordErrorMsg e = d ∧ adminLoginErrorMsg e = d) ∧
    (detailTruthy e = false →
      changePasswordErrorMsg e = jsStringOr e.message "密码修改失败" ∧
      adminLoginErrorMsg e =
        jsStringOr e.dataMessage (jsStringOr e.message "登录失败")) ∧
    adminLoginToast e = "用户名和密码错误，请重新输入" := by
  refine ⟨?_, ?_, rfl⟩
  · intro d hd hne
    simp [changePasswordErrorMsg, adminLoginErrorMsg, jsStringOr, hd, hne]
  · intro hf
    cases hdet : e.detail with
    | none => simp [changePasswordErrorMsg, adminLoginErrorMsg, jsStringOr, hdet]
    | some s =>
      have hs : s = "" := by
        by_contra hne
        rw [detailTruthy, hdet] at hf
        simp [hne] at hf
      subst hs
      simp [changePasswordErrorMsg, adminLoginErrorMsg, jsStringOr, hdet]

/-- Witness for C7 (amended) at a concrete error carrying a server detail
string. -/
theorem toast_detail_handling_witness :
    changePasswordErrorMsg ⟨some "旧密码错误", none, some "Request failed"⟩ =
        "旧密码错误" ∧
      adminLoginToast ⟨some "旧密码错误", none, some "Request failed"⟩ =
        "用户名和密码错误，请重新输入" := by
  have h := toast_detail_handling ⟨some "旧密码错误", none, some "Request failed"⟩
  exact ⟨(h.1 "旧密码错误" rfl (by decide)).1, h.2.2⟩

/-!  ## Job positions

Model of `JobCreate.handleSubmit` and of the JobList screen (the unnamed
source `part_003`), together with the lifecycle of spec section 3. -/

/-- JavaScript truthiness of an optional number: 0 and undefined are falsy. -/
def jsNumTruthy : Option Nat → Bool
  | some n => n ≠ 0
  | none => false

/-- The values of the JobCreate form (strings are empty when unfilled,
matching JS falsiness of the empty string). -/
structure JobFormValues where
  title : String
  description : String
  requirements : String
  department_id : Option Nat
  department : String
deriving DecidableEq, Repr

/-- The payload `JobCreate.handleSubmit` submits. -/
structure JobSubmitData where
  title : String
  description : Option String
  requirements : Option String
  status : String
  department_id : Option Nat
  department : Option String
deriving DecidableEq, Repr

/-- `JobCreate.handleSubmit`: the submitted payload always carries
`status: 'draft'`; falsy description/requirements become absent; a truthy
selected department id wins over the free-text department name. -/
def jobCreateSubmitData (values : JobFormValues) : JobSubmitData :=
  { title := values.title
    description := if values.description = "" then none else some values.description
    requirements :=
      if values.requirements = "" then none else some values.requirements
    status := "draft"
    department_id :=
      if jsNumTruthy values.department_id then values.department_id else none
    department :=
      if jsNumTruthy values.department_id then none
      else if values.department = "" then none else some values.department }

/-- The status values the JobList status filter offers. -/
def jobStatuses : List String := ["draft", "published", "closed"]

/-- The JobList actions column renders the publish button exactly for rows
whose status is draft. -/
def publishOffered (status : String) : Bool := status == "draft"

/-- Modelled from the spec: the backend lifecycle actions on a job position
(`draft → published → closed`); the publish endpoint and the close transition
are backend code absent from the sources. -/
inductive JobAction
  | publish
  | close
deriving DecidableEq, Repr

/-- Modelled from the spec: one lifecycle transition; an action not allowed
in the current status is rejected (no status change). -/
def jobStep (s : String) : JobAction → Option String
  | .publish => if s = "draft" then some "published" else none
  | .close => if s = "published" then some "closed" else none

def jobApply (s : String) (a : JobAction) : String := (jobStep s a).getD s

/-- Helper: lifecycle actions keep the status inside the three-value set. -/
theorem jobApply_mem (as : List JobAction) (s : String) (hs : s ∈ jobStatuses) :
    as.foldl jobApply s ∈ jobStatuses := by
  induction as generalizing s with
  | nil => exact hs
  | cons a rest ih =>
    refine ih (jobApply s a) ?_
    simp only [jobStatuses, List.mem_cons, List.not_mem_nil, or_false] at hs
    rcases hs with h | h | h <;> subst h <;> cases a <;>
      simp [jobApply, jobStep, jobStatuses]

/-- C5: every job is created with status draft; every status reachable from
creation through the lifecycle actions stays in the set draft, published,
closed; and the publish action is offered exactly for jobs whose current
status is draft. -/
theorem job_lifecycle (values : JobFormValues) (as : List JobAction) (s : String) :
    (jobCreateSubmitData values).status = "draft" ∧
      as.foldl jobApply (jobCreateSubmitData values).status ∈ jobStatuses ∧
      (publishOffered s = true → s = "draft") := by
  refine ⟨rfl, jobApply_mem as "draft" (by simp [jobStatuses]), fun h => ?_⟩
  simpa [publishOffered] using h

/-- Witness for C5 at a concrete form value, action list and status. -/
theorem job_lifecycle_witness :
    (jobCreateSubmitData ⟨"工程师", "", "", none, ""⟩).status = "draft" ∧
      [JobAction.publish, JobAction.close].foldl jobApply
        (jobCreateSubmitData ⟨"工程师", "", "", none, ""⟩).status ∈ jobStatuses ∧
      "draft" = "draft" := by
  have h := job_lifecycle ⟨"工程师", "", "", none, ""⟩
    [JobAction.publish, JobAction.close] "draft"
  exact ⟨h.1, h.2.1, h.2.2 (by decide)⟩

/-!  ## Resume-to-job match records

Model of the MatchList screen (the unnamed source `part_004`): the filter
option lists, the status-update buttons, and — modelled from the spec — the
record produced by the backend matching service. -/

/-- The four tier labels the MatchList label filter offers. -/
def matchLabelOptions : List String := ["强烈推荐", "推荐", "谨慎推荐", "不推荐"]

/-- The four status values the MatchList status filter offers. -/
def matchStatusOptions : List String := ["pending", "reviewed", "rejected", "accepted"]

/-- The status-update buttons MatchList renders for a row: 审核 (reviewed)
and 拒绝 (rejected), only for rows whose status is pending. -/
def matchListStatusUpdates (rowStatus : String) : List String :=
  if rowStatus == "pending" then ["reviewed", "rejected"] else []

/-- A ResumeJobMatch record as the frontend consumes it. -/
structure ResumeJobMatch where
  matchScore : Nat
  matchLabel : String
  status : String
deriving DecidableEq, Repr

/-- Modelled from the spec: the backend matching service (absent from the
sources) creates each ResumeJobMatch with a categorical label drawn from the
four tiers and initial status pending. -/
def mkResumeJobMatch (score : Nat) (tier : Fin 4) : ResumeJobMatch :=
  { matchScore := score
    matchLabel := matchLabelOptions.get ⟨tier.val, by simp [matchLabelOptions]⟩
    status := "pending" }

/-- `jobApi.updateMatchStatus` sets the status the UI passed. -/
def updateMatchStatus (m : ResumeJobMatch) (s : String) : ResumeJobMatch :=
  { m with status := s }

/-- C6: a created match record carries a label from exactly the four tiers
and a status from exactly the four status values, and every status update
the match list can issue uses one of the four status values, so the updated
record stays inside them. -/
theorem match_label_status_domains (score : Nat) (tier : Fin 4)
    (m : ResumeJobMatch) (rowStatus u : String) :
    (mkResumeJobMatch score tier).matchLabel ∈ matchLabelOptions ∧
      (mkResumeJobMatch score tier).status ∈ matchStatusOptions ∧
      (u ∈ matchListStatusUpdates rowStatus →
        u ∈ matchStatusOptions ∧
          (updateMatchStatus m u).status ∈ matchStatusOptions) := by
  refine ⟨?_, by simp [mkResumeJobMatch, matchStatusOptions], fun hu => ?_⟩
  · simp only [mkResumeJobMatch]
    exact List.get_mem _ _ _
  have hmem : u ∈ matchStatusOptions := by
    by_cases hp : rowStatus == "pending"
    · rw [matchListStatusUpdates, if_pos hp] at hu
      simp only [List.mem_cons, List.not_mem_nil, or_false] at hu
      rcases hu with h | h <;> subst h <;> simp [matchStatusOptions]
    · rw [matchListStatusUpdates, if_neg hp] at hu
      cases hu
  exact ⟨hmem, by simpa [updateMatchStatus] using hmem⟩

/-- Witness for C6 at a concrete record and the 审核 update of a pending row. -/
theorem match_label_status_domains_witness :
    (mkResumeJobMatch 8 ⟨0, by omega⟩).matchLabel ∈ matchLabelOptions ∧
      "reviewed" ∈ matchStatusOptions ∧
      (updateMatchStatus (mkResumeJobMatch 8 ⟨0, by omega⟩) "reviewed").status ∈
        matchStatusOptions := by
  have h := match_label_status_domains 8 ⟨0, by omega⟩
    (mkResumeJobMatch 8 ⟨0, by omega⟩) "pending" "reviewed"
  have hu := h.2.2 (by decide)
  exact ⟨h.1, hu.1, hu.2⟩

/-!  ## Match-result pagination

Model of `jobApi.getMatchResults` (`frontend/app/src/services/jobApi.ts`). -/

/-- The optional query parameters `getMatchResults` accepts. -/
structure MatchResultsParams where
  job_id : Option Nat
  resume_id : Option Nat
  match_label : Option String
  status : Option String
  skip : Option Nat
  limit : Option Nat
  page : Option Nat
  pageSize : Option Nat
deriving DecidableEq, Repr

/-- The skip actually sent: `page && pageSize ? (page - 1) * pageSize :
restParams.skip || 0`. -/
def getMatchResultsSkip (p : MatchResultsParams) : Nat :=
  if jsNumTruthy p.page && jsNumTruthy p.pageSize then
    (p.page.getD 0 - 1) * p.pageSize.getD 0
  else p.skip.getD 0

/-- The limit actually sent: `pageSize || restParams.limit || 20`. -/
def getMatchResultsLimit (p : MatchResultsParams) : Nat :=
  if jsNumTruthy p.pageSize then p.pageSize.getD 0
  else if jsNumTruthy p.limit then p.limit.getD 0
  else 20

/-- C9 counterexample: with page 1 and pageSize 0 the claim demands
limit = 0, but `pageSize` is falsy in JavaScript, so the code sends the
default limit 20. -/
theorem getMatchResults_pageSize_zero_cex :
    ¬ (∀ (p : MatchResultsParams) (pg s : Nat),
        p.page = some pg → 1 ≤ pg → p.pageSize = some s →
          getMatchResultsSkip p = (pg - 1) * s ∧
            getMatchResultsLimit p = s) := by
  intro h
  have := (h ⟨none, none, none, none, none, none, some 1, some 0⟩ 1 0
    rfl le_rfl rfl).2
  simp [getMatchResultsLimit, jsNumTruthy] at this

/-- C9 (amended): with page p ≥ 1 and pageSize s ≥ 1 the request carries
skip = (p − 1)·s and limit = s; with page and pageSize absent, skip is the
given skip parameter or 0, and limit is the given limit parameter when it is
nonzero, else 20. -/
theorem getMatchResults_pagination (p : MatchResultsParams) (pg s : Nat) :
    (p.page = some pg → 1 ≤ pg → p.pageSize = some s → 1 ≤ s →
      getMatchResultsSkip p = (pg - 1) * s ∧ getMatchResultsLimit p = s) ∧
    (p.page = none → p.pageSize = none →
      getMatchResultsSkip p = p.skip.getD 0 ∧
      getMatchResultsLimit p =
        (match p.limit with
          | some n => if n = 0 then 20 else n
          | none => 20)) := by
  constructor
  · intro hpage hpg hsize hs
    have hpg0 : pg ≠ 0 := by omega
    have hs0 : s ≠ 0 := by omega
    constructor
    · simp [getMatchResultsSkip, jsNumTruthy, hpage, hsize, hpg0, hs0]
    · simp [getMatchResultsLimit, jsNumTruthy, hsize, hs0]
  · intro hpage hsize
    constructor
    · simp [getMatchResultsSkip, jsNumTruthy, hpage, hsize]
    · cases hl : p.limit with
      | none => simp [getMatchResultsLimit, jsNumTruthy, hsize, hl]
      | some n =>
        by_cases hn : n = 0
        · simp [getMatchResultsLimit, jsNumTruthy, hsize, hl, hn]
        · simp [getMatchResultsLimit, jsNumTruthy, hsize, hl, hn]

/-- Witness for C9 (amended) at page 3, pageSize 20. -/
theorem getMatchResults_pagination_witness :
    getMatchResultsSkip ⟨none, none, none, none, none, none, some 3, some 20⟩ = 40 ∧
      getMatchResultsLimit ⟨none, none, none, none, none, none, some 3, some 20⟩
        = 20 :=
  (getMatchResults_pagination
      ⟨none, none, none, none, none, none, some 3, some 20⟩ 3 20).1
    rfl (by decide) rfl (by decide)

/-!  ## Report export

Model of `ExportService` (`frontend/app/src/services/export.ts`). -/

/-- The ReportData payload of the export service. -/
structure ReportData where
  match_id : Nat
  resume_id : Nat
  job_id : Nat
  candidate_name : Option String
  match_score : Nat
  match_label : String
deriving DecidableEq, Repr

/-- `ExportService.exportReportToWord`: one POST to `/export/report-word`;
the outcome of that request is supplied as an environment oracle.  On
failure the wrapper throws (`throw new Error(...)`). -/
def exportReportToWord (env : ReportData → Except String Unit)
    (r : ReportData) : Except String Unit := env r

/-- `ExportService.batchExportReports`: a sequential for-await loop over the
input list; an error thrown by `exportReportToWord` propagates immediately.
The first component lists the reports for which an export request was
issued, in order. -/
def batchExportReports (env : ReportData → Except String Unit) :
    List ReportData → List ReportData × Except String Unit
  | [] => ([], .ok ())
  | r :: rest =>
    match exportReportToWord env r with
    | .ok _ =>
      let res := batchExportReports env rest
      (r :: res.fst, res.snd)
    | .error e => ([r], .error e)

/-- C10: the reports for which an export request is issued form a prefix of
the input list (one request per report, in input order); on overall success
every report was exported; and on failure the last issued request is the
failing one — every earlier report succeeded and no report after the failed
one was exported. -/
theorem batchExport_sequential (env : ReportData → Except String Unit)
    (rs : List ReportData) :
    (∃ t, (batchExportReports env rs).fst ++ t = rs) ∧
      ((batchExportReports env rs).snd = .ok () →
        (batchExportReports env rs).fst = rs) ∧
      (∀ e, (batchExportReports env rs).snd = .error e →
        ∃ done r, (batchExportReports env rs).fst = done ++ [r] ∧
          (∀ x ∈ done, env x = .ok ()) ∧ env r = .error e) := by
  induction rs with
  | nil =>
    refine ⟨⟨[], rfl⟩, fun _ => rfl, fun e he => ?_⟩
    simp [batchExportReports] at he
  | cons r rest ih =>
    cases henv : env r with
    | ok u =>
      cases u
      obtain ⟨⟨t, ht⟩, hok, herr⟩ := ih
      refine ⟨⟨t, ?_⟩, fun hs => ?_, fun e he => ?_⟩
      · simp only [batchExportReports, exportReportToWord, henv]
        simpa using ht
      · simp only [batchExportReports, exportReportToWord, henv] at hs ⊢
        simpa using hok hs
      · simp only [batchExportReports, exportReportToWord, henv] at he ⊢
        obtain ⟨done, rr, hsplit, hdone, hrr⟩ := herr e he
        refine ⟨r :: done, rr, by simp [hsplit], ?_, hrr⟩
        intro x hx
        rcases List.mem_cons.mp hx with hx | hx
        · exact hx ▸ henv
        · exact hdone x hx
    | error e0 =>
      refine ⟨⟨rest, ?_⟩, fun hs => ?_, fun e he => ?_⟩
      · simp [batchExportReports, exportReportToWord, henv]
      · simp [batchExportReports, exportReportToWord, henv] at hs
      · simp only [batchExportReports, exportReportToWord, henv] at he ⊢
        refine ⟨[], r, by simp, by simp, ?_⟩
        cases he
        exact henv

/-- A concrete export environment for the witness: the report with match id
2 fails, everything else succeeds. -/
def sampleExportEnv (r : ReportData) : Except String Unit :=
  if r.match_id = 2 then .error "导出失败: network error" else .ok ()

/-- Three concrete reports for the witness. -/
def sampleReports : List ReportData :=
  [⟨1, 11, 21, some "张三", 8, "推荐"⟩,
   ⟨2, 12, 22, some "李四", 5, "谨慎推荐"⟩,
   ⟨3, 13, 23, some "王五", 9, "强烈推荐"⟩]

/-- Witness for C10: in the sample batch the failing second report stops the
loop — the issued requests are the first two, every earlier one succeeded,
and the third report is never exported. -/
theorem batchExport_sequential_witness :
    ∃ done r, (batchExportReports sampleExportEnv sampleReports).fst =
        done ++ [r] ∧
      (∀ x ∈ done, sampleExportEnv x = .ok ()) ∧
      sampleExportEnv r = .error "导出失败: network error" :=
  (batchExport_sequential sampleExportEnv sampleReports).2.2
    "导出失败: network error" rfl

end ResumeRobot
